import Mathlib

/-!
# Webmake publish workflow — verification development

Shallow embedding of the Webmake repository's publish-or-fallback workflow
(`src/route.ts`, handler `POST`) and its site renderer (`src/page.tsx`,
function `buildHtml`), together with theorems about the testable properties
of the specification.

Modelling conventions:
- Strings are Lean `String`s; raw bytes are `List Nat` with every element
  below 256.
- JavaScript truthiness on optional string values (`!x`) is modelled by
  `truthy : Option String → Bool` (absent and empty string are falsy).
- Environment variables are an explicit `Env` record; the clock
  (`Date.now()`, the ZIP timestamp) is an explicit `Clock` record; the
  responses the provider endpoints would return are explicit `FetchResponse`
  arguments.  The handler returns, besides the HTTP response, the list of
  outbound calls it performed and whether the archive was built, so that
  side-effect claims are statable.
- JSZip (a third-party library, not part of this repository) is modelled
  from the spec's description of the archive as a "ZIP-equivalent
  container": `zipGenerate` serialises entries in the ZIP store format
  (local file headers followed by a central directory), and `zipExtract`
  parses such an archive back.
- SHA-1, CRC-32 and base64 are implemented concretely over byte lists.
-/

set_option maxHeartbeats 1000000
set_option maxRecDepth 8192

namespace Webmake

/-- JavaScript truthiness of a possibly-absent string: `undefined` and the
empty string are falsy, every other string is truthy. -/
def truthy (o : Option String) : Bool :=
  o.getD "" != ""

/-- JavaScript `a || b` on possibly-absent strings: yields `a` when `a` is
truthy, otherwise `b` (even when `b` is itself absent). -/
def jsOr (a b : Option String) : Option String :=
  if truthy a then a else b

/-! ## UTF-8 -/

/-- UTF-8 encoding of a single character (by code point ranges). -/
def utf8Char (c : Char) : List Nat :=
  if c.toNat < 0x80 then [c.toNat]
  else if c.toNat < 0x800 then [0xC0 + c.toNat / 64, 0x80 + c.toNat % 64]
  else if c.toNat < 0x10000 then
    [0xE0 + c.toNat / 4096, 0x80 + c.toNat / 64 % 64, 0x80 + c.toNat % 64]
  else
    [0xF0 + c.toNat / 262144, 0x80 + c.toNat / 4096 % 64,
      0x80 + c.toNat / 64 % 64, 0x80 + c.toNat % 64]

/-- UTF-8 encoding of a string as a byte list. -/
def utf8Encode (s : String) : List Nat :=
  (s.data.map utf8Char).flatten

/-- Decode one UTF-8 character from the front of a byte list, returning the
character and the remaining bytes; `none` on malformed input. -/
def utf8DecodeOne : List Nat → Option (Char × List Nat)
  | [] => none
  | b0 :: rest =>
    if b0 < 0x80 then some (Char.ofNat b0, rest)
    else if b0 < 0xC0 then none
    else if b0 < 0xE0 then
      match rest with
      | b1 :: r =>
        if b1 < 0x80 ∨ 0xC0 ≤ b1 then none
        else some (Char.ofNat ((b0 - 0xC0) * 64 + (b1 - 0x80)), r)
      | [] => none
    else if b0 < 0xF0 then
      match rest with
      | b1 :: b2 :: r =>
        if b1 < 0x80 ∨ 0xC0 ≤ b1 ∨ b2 < 0x80 ∨ 0xC0 ≤ b2 then none
        else some (Char.ofNat ((b0 - 0xE0) * 4096 + (b1 - 0x80) * 64 + (b2 - 0x80)), r)
      | _ => none
    else
      match rest with
      | b1 :: b2 :: b3 :: r =>
        if b1 < 0x80 ∨ 0xC0 ≤ b1 ∨ b2 < 0x80 ∨ 0xC0 ≤ b2 ∨ b3 < 0x80 ∨ 0xC0 ≤ b3 then none
        else some (Char.ofNat ((b0 - 0xF0) * 262144 + (b1 - 0x80) * 4096 +
          (b2 - 0x80) * 64 + (b3 - 0x80)), r)
      | _ => none

/-- Fuel-driven UTF-8 decoding loop (one unit of fuel per character). -/
def utf8DecodeLoop : Nat → List Nat → Option (List Char)
  | _, [] => some []
  | 0, _ :: _ => none
  | fuel + 1, b0 :: rest =>
    (utf8DecodeOne (b0 :: rest)).bind fun cr =>
      (utf8DecodeLoop fuel cr.2).map (cr.1 :: ·)

/-- UTF-8 decoding of a byte list into a string; `none` on malformed
input. -/
def utf8Decode (bytes : List Nat) : Option String :=
  (utf8DecodeLoop bytes.length bytes).map String.mk

theorem char_toNat_lt (c : Char) : c.toNat < 1114112 := by
  have h := c.valid
  rcases h with h | ⟨h1, h2⟩
  · exact lt_trans h (by norm_num)
  · exact h2

theorem utf8Char_lt_256 {c : Char} {b : Nat} (hb : b ∈ utf8Char c) : b < 256 := by
  have hval : c.toNat < 1114112 := char_toNat_lt c
  unfold utf8Char at hb
  split at hb
  · simp only [List.mem_singleton] at hb; subst hb; omega
  · split at hb
    · simp only [List.mem_cons, List.not_mem_nil, or_false] at hb
      rcases hb with h | h <;> (subst h; omega)
    · split at hb
      · simp only [List.mem_cons, List.not_mem_nil, or_false] at hb
        rcases hb with h | h | h <;> (subst h; omega)
      · simp only [List.mem_cons, List.not_mem_nil, or_false] at hb
        rcases hb with h | h | h | h <;> (subst h; omega)

theorem utf8Char_ne_nil (c : Char) : utf8Char c ≠ [] := by
  unfold utf8Char
  split
  · simp
  · split
    · simp
    · split <;> simp

theorem utf8DecodeOne_utf8Char (c : Char) (bs : List Nat) :
    utf8DecodeOne (utf8Char c ++ bs) = some (c, bs) := by
  have hofNat : Char.ofNat c.toNat = c := Char.ofNat_toNat c
  have hval : c.toNat < 1114112 := char_toNat_lt c
  unfold utf8Char
  by_cases h1 : c.toNat < 0x80
  · simp only [if_pos h1, List.cons_append, List.nil_append]
    unfold utf8DecodeOne
    simp [h1, hofNat]
  · by_cases h2 : c.toNat < 0x800
    · simp only [if_neg h1, if_pos h2, List.cons_append, List.nil_append]
      unfold utf8DecodeOne
      have e1 : ¬ (0xC0 + c.toNat / 64 < 0x80) := by omega
      have e2 : ¬ (0xC0 + c.toNat / 64 < 0xC0) := by omega
      have e3 : 0xC0 + c.toNat / 64 < 0xE0 := by omega
      have e4 : ¬ (0x80 + c.toNat % 64 < 0x80 ∨ 0xC0 ≤ 0x80 + c.toNat % 64) := by omega
      simp [e1, e2, e3, e4, hofNat]
      refine ⟨by omega, ?_⟩
      rw [show c.toNat / 64 * 64 + c.toNat % 64 = c.toNat from by omega]
      exact hofNat
    · by_cases h3 : c.toNat < 0x10000
      · simp only [if_neg h1, if_neg h2, if_pos h3, List.cons_append, List.nil_append]
        unfold utf8DecodeOne
        have e1 : ¬ (0xE0 + c.toNat / 4096 < 0x80) := by omega
        have e2 : ¬ (0xE0 + c.toNat / 4096 < 0xC0) := by omega
        have e3 : ¬ (0xE0 + c.toNat / 4096 < 0xE0) := by omega
        have e4 : 0xE0 + c.toNat / 4096 < 0xF0 := by omega
        have e5 : ¬ (0x80 + c.toNat / 64 % 64 < 0x80 ∨ 0xC0 ≤ 0x80 + c.toNat / 64 % 64 ∨
            0x80 + c.toNat % 64 < 0x80 ∨ 0xC0 ≤ 0x80 + c.toNat % 64) := by omega
        simp [e1, e2, e3, e4, e5, hofNat]
        refine ⟨⟨by omega, by omega⟩, ?_⟩
        rw [show c.toNat / 4096 * 4096 + c.toNat / 64 % 64 * 64 + c.toNat % 64 = c.toNat
          from by omega]
        exact hofNat
      · simp only [if_neg h1, if_neg h2, if_neg h3, List.cons_append, List.nil_append]
        unfold utf8DecodeOne
        have e1 : ¬ (0xF0 + c.toNat / 262144 < 0x80) := by omega
        have e2 : ¬ (0xF0 + c.toNat / 262144 < 0xC0) := by omega
        have e3 : ¬ (0xF0 + c.toNat / 262144 < 0xE0) := by omega
        have e4 : ¬ (0xF0 + c.toNat / 262144 < 0xF0) := by omega
        have e5 : ¬ (0x80 + c.toNat / 4096 % 64 < 0x80 ∨ 0xC0 ≤ 0x80 + c.toNat / 4096 % 64 ∨
            0x80 + c.toNat / 64 % 64 < 0x80 ∨ 0xC0 ≤ 0x80 + c.toNat / 64 % 64 ∨
            0x80 + c.toNat % 64 < 0x80 ∨ 0xC0 ≤ 0x80 + c.toNat % 64) := by omega
        simp [e1, e2, e3, e4, e5, hofNat]
        refine ⟨⟨by omega, by omega, by omega⟩, ?_⟩
        rw [show c.toNat / 262144 * 262144 + c.toNat / 4096 % 64 * 4096 +
          c.toNat / 64 % 64 * 64 + c.toNat % 64 = c.toNat from by omega]
        exact hofNat

theorem utf8DecodeLoop_join (cs : List Char) :
    ∀ fuel, cs.length ≤ fuel →
      utf8DecodeLoop fuel ((cs.map utf8Char).flatten) = some cs := by
  induction cs with
  | nil => intro fuel _; cases fuel <;> simp [utf8DecodeLoop]
  | cons c cs ih =>
    intro fuel hfuel
    cases fuel with
    | zero => simp at hfuel
    | succ f =>
      have hne : utf8Char c ≠ [] := utf8Char_ne_nil c
      rcases hhd : utf8Char c with _ | ⟨b, bs⟩
      · exact absurd hhd hne
      · have hdec : utf8DecodeOne (utf8Char c ++ (cs.map utf8Char).flatten) =
            some (c, (cs.map utf8Char).flatten) := utf8DecodeOne_utf8Char c _
        rw [hhd] at hdec
        simp only [List.map_cons, List.flatten_cons, hhd, List.cons_append]
        rw [utf8DecodeLoop]
        rw [List.cons_append] at hdec
        rw [hdec]
        simp only [Option.some_bind]
        rw [ih f (by simp only [List.length_cons] at hfuel; omega)]
        rfl

/-- Decoding the UTF-8 encoding of a string recovers the string exactly. -/
theorem utf8Decode_utf8Encode (s : String) : utf8Decode (utf8Encode s) = some s := by
  have hlen : s.data.length ≤ (utf8Encode s).length := by
    show s.data.length ≤ ((s.data.map utf8Char).flatten).length
    induction s.data with
    | nil => simp
    | cons c cs ih =>
      have := List.length_pos.mpr (utf8Char_ne_nil c)
      simp only [List.map_cons, List.flatten_cons, List.length_append, List.length_cons]
      omega
  unfold utf8Decode
  rw [show utf8Encode s = ((s.data.map utf8Char).flatten) from rfl] at hlen ⊢
  rw [utf8DecodeLoop_join s.data _ hlen]
  rfl

/-! ## Base64 (the encoding used by `Buffer.toString('base64')`) -/

/-- The standard base64 alphabet. -/
def b64Alphabet : List Char :=
  "ABCDEFGHIJKLMNOPQRSTUVWXYZabcdefghijklmnopqrstuvwxyz0123456789+/".data

/-- The base64 digit for a 6-bit value. -/
def b64Char (n : Nat) : Char :=
  b64Alphabet.getD n 'A'

/-- The 6-bit value of a base64 digit; `none` for characters outside the
alphabet. -/
def b64Val (c : Char) : Option Nat :=
  b64Alphabet.indexOf? c

/-- Standard base64 encoding of a byte list (with `=` padding), as produced
by Node's `Buffer.prototype.toString('base64')`. -/
def base64Encode : List Nat → List Char
  | [] => []
  | [a] => [b64Char (a / 4), b64Char (a % 4 * 16), '=', '=']
  | [a, b] => [b64Char (a / 4), b64Char (a % 4 * 16 + b / 16), b64Char (b % 16 * 4), '=']
  | a :: b :: c :: rest =>
    b64Char (a / 4) :: b64Char (a % 4 * 16 + b / 16) ::
      b64Char (b % 16 * 4 + c / 64) :: b64Char (c % 64) :: base64Encode rest

/-- Standard base64 decoding of a character list; `none` on malformed
input. -/
def base64Decode : List Char → Option (List Nat)
  | [] => some []
  | w :: x :: y :: z :: rest =>
    (b64Val w).bind fun vw =>
    (b64Val x).bind fun vx =>
    if y = '=' ∧ z = '=' ∧ rest = [] then some [vw * 4 + vx / 16]
    else
      (b64Val y).bind fun vy =>
      if z = '=' ∧ rest = [] then some [vw * 4 + vx / 16, vx % 16 * 16 + vy / 4]
      else
        (b64Val z).bind fun vz =>
        (base64Decode rest).map fun tail =>
          (vw * 4 + vx / 16) :: (vx % 16 * 16 + vy / 4) :: (vy % 4 * 64 + vz) :: tail
  | _ => none

theorem b64Val_b64Char : ∀ n, n < 64 → b64Val (b64Char n) = some n := by decide

theorem b64Char_ne_eq : ∀ n, n < 64 → b64Char n ≠ '=' := by decide

theorem base64Decode_base64Encode (l : List Nat) (hl : ∀ b ∈ l, b < 256) :
    base64Decode (base64Encode l) = some l := by
  induction l using base64Encode.induct with
  | case1 => simp [base64Encode, base64Decode]
  | case2 a =>
    have ha : a < 256 := hl a (by simp)
    rw [base64Encode, base64Decode]
    rw [b64Val_b64Char _ (by omega), b64Val_b64Char _ (by omega)]
    simp only [Option.some_bind]
    rw [if_pos (by simp)]
    simp only [Option.some.injEq, List.cons.injEq, and_true]
    omega
  | case3 a b =>
    have ha : a < 256 := hl a (by simp)
    have hb : b < 256 := hl b (by simp)
    rw [base64Encode, base64Decode]
    rw [b64Val_b64Char _ (by omega), b64Val_b64Char _ (by omega),
      b64Val_b64Char _ (by omega)]
    simp only [Option.some_bind]
    rw [if_neg (by simp [b64Char_ne_eq _ (by omega : b % 16 * 4 < 64)]),
      if_pos (by simp)]
    simp only [Option.some.injEq, List.cons.injEq, and_true]
    omega
  | case4 a b c rest ih =>
    have ha : a < 256 := hl a (by simp)
    have hb : b < 256 := hl b (by simp)
    have hc : c < 256 := hl c (by simp)
    have hrest : ∀ x ∈ rest, x < 256 := fun x hx => hl x (by simp [hx])
    rw [base64Encode, base64Decode]
    rw [b64Val_b64Char _ (by omega), b64Val_b64Char _ (by omega),
      b64Val_b64Char _ (by omega), b64Val_b64Char _ (by omega)]
    simp only [Option.some_bind]
    rw [if_neg (by simp [b64Char_ne_eq _ (by omega : c % 64 < 64)]),
      if_neg (by simp [b64Char_ne_eq _ (by omega : c % 64 < 64)])]
    rw [ih hrest]
    simp only [Option.map_some', Option.some.injEq, List.cons.injEq, and_true, true_and]
    omega

/-! ## SHA-1 (the digest used by the `sha1` helper of `src/route.ts`) -/

/-- Left-rotation of a 32-bit word. -/
def rotl32 (n x : Nat) : Nat :=
  ((x <<< n) % 4294967296) ||| (x >>> (32 - n))

/-- Big-endian bytes of a 32-bit word. -/
def be32 (n : Nat) : List Nat :=
  [n / 16777216 % 256, n / 65536 % 256, n / 256 % 256, n % 256]

/-- Big-endian bytes of a 64-bit word. -/
def be64 (n : Nat) : List Nat :=
  be32 (n / 4294967296) ++ be32 n

/-- SHA-1 message padding: `0x80`, zeros, and the 64-bit big-endian bit
length, to a multiple of 64 bytes. -/
def sha1Pad (msg : List Nat) : List Nat :=
  msg ++ [0x80] ++ List.replicate ((120 - (msg.length + 1) % 64) % 64) 0 ++
    be64 (msg.length * 8)

/-- Group bytes into big-endian 32-bit words. -/
def bytesToWords : List Nat → List Nat
  | a :: b :: c :: d :: rest => (((a * 256 + b) * 256 + c) * 256 + d) :: bytesToWords rest
  | _ => []

/-- Extend the 16 block words to 80 round words (accumulator is reversed). -/
def sha1Extend : Nat → List Nat → List Nat
  | 0, acc => acc.reverse
  | n + 1, acc =>
    sha1Extend n
      (rotl32 1 ((acc.getD 2 0) ^^^ (acc.getD 7 0) ^^^ (acc.getD 13 0) ^^^ (acc.getD 15 0)) :: acc)

/-- One SHA-1 round, applied to state `(a, b, c, d, e)` with round index and
round word. -/
def sha1Round (st : Nat × Nat × Nat × Nat × Nat) (iw : Nat × Nat) :
    Nat × Nat × Nat × Nat × Nat :=
  match st with
  | (a, b, c, d, e) =>
    let f :=
      if iw.1 < 20 then (b &&& c) ||| ((b ^^^ 4294967295) &&& d)
      else if iw.1 < 40 then b ^^^ c ^^^ d
      else if iw.1 < 60 then (b &&& c) ||| (b &&& d) ||| (c &&& d)
      else b ^^^ c ^^^ d
    let k :=
      if iw.1 < 20 then 1518500249
      else if iw.1 < 40 then 1859775393
      else if iw.1 < 60 then 2400959708
      else 3395469782
    ((rotl32 5 a + f + e + k + iw.2) % 4294967296, a, rotl32 30 b, c, d)

/-- Process one 64-byte block. -/
def sha1Block (block : List Nat) (h : Nat × Nat × Nat × Nat × Nat) :
    Nat × Nat × Nat × Nat × Nat :=
  match h with
  | (h0, h1, h2, h3, h4) =>
    let ws := sha1Extend 64 ((bytesToWords block).reverse)
    match ((List.range 80).zip ws).foldl sha1Round (h0, h1, h2, h3, h4) with
    | (a, b, c, d, e) =>
      ((h0 + a) % 4294967296, (h1 + b) % 4294967296, (h2 + c) % 4294967296,
        (h3 + d) % 4294967296, (h4 + e) % 4294967296)

/-- Process a padded message 64 bytes at a time (structural recursion on a
fuel bound, one unit per block). -/
def sha1Chunks : Nat → List Nat → Nat × Nat × Nat × Nat × Nat → Nat × Nat × Nat × Nat × Nat
  | 0, _, h => h
  | _, [], h => h
  | fuel + 1, b :: bs, h => sha1Chunks fuel (bs.drop 63) (sha1Block ((b :: bs).take 64) h)

/-- Lower-case hex digit. -/
def hexChar (n : Nat) : Char :=
  "0123456789abcdef".data.getD n '0'

/-- The `k` most significant nibbles of `n`, as hex characters. -/
def hexNibbles : Nat → Nat → List Char
  | 0, _ => []
  | k + 1, n => hexChar (n / 16 ^ k % 16) :: hexNibbles k n

/-- SHA-1 of a byte list, as a lower-case hex string — the model of the
`sha1` helper in `src/route.ts` (hex-encoded digest). -/
def sha1Hex (msg : List Nat) : String :=
  match sha1Chunks (sha1Pad msg).length (sha1Pad msg)
      (1732584193, 4023233417, 2562383102, 271733878, 3285377520) with
  | (h0, h1, h2, h3, h4) =>
    String.mk (hexNibbles 8 h0 ++ hexNibbles 8 h1 ++ hexNibbles 8 h2 ++
      hexNibbles 8 h3 ++ hexNibbles 8 h4)

/-- Sanity check against the FIPS 180-1 test vector for "abc". -/
theorem sha1Hex_abc : sha1Hex (utf8Encode "abc") = "a9993e364706816aba3e25717850c26c9cd0d89d" := by
  decide

/-- Sanity check: SHA-1 of the empty message. -/
theorem sha1Hex_empty : sha1Hex [] = "da39a3ee5e6b4b0d3255bfef95601890afd80709" := by
  decide

/-! ## CRC-32 (used by the ZIP container model) -/

/-- One bit step of the reflected CRC-32 computation, iterated `n` times. -/
def crc32Bits : Nat → Nat → Nat
  | 0, r => r
  | n + 1, r => crc32Bits n (if r % 2 = 1 then (r / 2) ^^^ 0xEDB88320 else r / 2)

/-- CRC-32 (IEEE 802.3, as stored in ZIP local file headers). -/
def crc32 (bytes : List Nat) : Nat :=
  (bytes.foldl (fun r b => crc32Bits 8 (r ^^^ b)) 0xFFFFFFFF) ^^^ 0xFFFFFFFF

/-- Sanity check against the standard CRC-32 check value. -/
theorem crc32_check : crc32 (utf8Encode "123456789") = 0xCBF43926 := by
  decide

/-! ## ZIP store-format container

Modelled from the spec: the archive built by JSZip (`zip.file(...)` twice,
then `zip.generateAsync`) is a third-party library product not part of this
repository's sources; the spec describes it as an "in-memory ZIP-equivalent
container with two entries".  We model it as an uncompressed (store-method)
ZIP archive: local file headers with CRC-32 checksums, a central directory
and an end-of-central-directory record, with explicit DOS time/date fields
supplied by the clock. -/

/-- Little-endian bytes of a 16-bit field. -/
def le16 (n : Nat) : List Nat :=
  [n % 256, n / 256 % 256]

/-- Little-endian bytes of a 32-bit field. -/
def le32 (n : Nat) : List Nat :=
  [n % 256, n / 256 % 256, n / 65536 % 256, n / 16777216 % 256]

/-- A ZIP local file header followed by the stored entry data.  An entry is
a pair of name bytes and content bytes. -/
def zipLocal (t d : Nat) (e : List Nat × List Nat) : List Nat :=
  [0x50, 0x4B, 0x03, 0x04] ++ le16 20 ++ le16 0 ++ le16 0 ++ le16 t ++ le16 d ++
    le32 (crc32 e.2) ++ le32 e.2.length ++ le32 e.2.length ++
    le16 e.1.length ++ le16 0 ++ e.1 ++ e.2

/-- All local file records, in entry order. -/
def zipLocals (t d : Nat) : List (List Nat × List Nat) → List Nat
  | [] => []
  | e :: es => zipLocal t d e ++ zipLocals t d es

/-- A central directory record for one entry. -/
def zipCentral (t d offset : Nat) (e : List Nat × List Nat) : List Nat :=
  [0x50, 0x4B, 0x01, 0x02] ++ le16 20 ++ le16 20 ++ le16 0 ++ le16 0 ++ le16 t ++ le16 d ++
    le32 (crc32 e.2) ++ le32 e.2.length ++ le32 e.2.length ++
    le16 e.1.length ++ le16 0 ++ le16 0 ++ le16 0 ++ le16 0 ++ le32 0 ++ le32 offset ++ e.1

/-- The central directory, tracking each entry's local header offset. -/
def zipCentrals (t d offset : Nat) : List (List Nat × List Nat) → List Nat
  | [] => []
  | e :: es => zipCentral t d offset e ++ zipCentrals t d (offset + (zipLocal t d e).length) es

/-- The end-of-central-directory record. -/
def zipEnd (count cdSize cdOffset : Nat) : List Nat :=
  [0x50, 0x4B, 0x05, 0x06] ++ le16 0 ++ le16 0 ++ le16 count ++ le16 count ++
    le32 cdSize ++ le32 cdOffset ++ le16 0

/-- Serialise a list of (name bytes, content bytes) entries as a store-mode
ZIP archive with the given DOS time/date stamp. -/
def zipGenerate (t d : Nat) (es : List (List Nat × List Nat)) : List Nat :=
  zipLocals t d es ++ zipCentrals t d 0 es ++
    zipEnd es.length (zipCentrals t d 0 es).length (zipLocals t d es).length

/-- Read a little-endian 16-bit field. -/
def readLE16 : List Nat → Option (Nat × List Nat)
  | a :: b :: rest => some (a + 256 * b, rest)
  | _ => none

/-- Read a little-endian 32-bit field. -/
def readLE32 : List Nat → Option (Nat × List Nat)
  | a :: b :: c :: d :: rest => some (a + 256 * b + 65536 * c + 16777216 * d, rest)
  | _ => none

/-- Parse one local file record from the front of an archive, returning the
entry and the remaining bytes; `none` if the bytes do not start with a local
file header. -/
def parseEntry (l : List Nat) : Option ((List Nat × List Nat) × List Nat) :=
  match l with
  | 0x50 :: 0x4B :: 0x03 :: 0x04 :: rest =>
    (readLE16 rest).bind fun ver =>
    (readLE16 ver.2).bind fun flags =>
    (readLE16 flags.2).bind fun method =>
    (readLE16 method.2).bind fun time =>
    (readLE16 time.2).bind fun date =>
    (readLE32 date.2).bind fun crc =>
    (readLE32 crc.2).bind fun csize =>
    (readLE32 csize.2).bind fun usize =>
    (readLE16 usize.2).bind fun nlen =>
    (readLE16 nlen.2).bind fun elen =>
    let r := elen.2
    if nlen.1 + elen.1 + csize.1 ≤ r.length then
      some ((r.take nlen.1, (r.drop (nlen.1 + elen.1)).take csize.1),
        (r.drop (nlen.1 + elen.1)).drop csize.1)
    else none
  | _ => none

/-- Parse consecutive local file records (one unit of fuel per entry),
stopping at the first bytes that are not a local file header (in a
well-formed archive, the central directory). -/
def parseEntries : Nat → List Nat → List (List Nat × List Nat)
  | 0, _ => []
  | fuel + 1, l =>
    match parseEntry l with
    | none => []
    | some (e, rest) => e :: parseEntries fuel rest

/-- Extract the content bytes of the named entry of a ZIP archive. -/
def zipExtract (bytes : List Nat) (name : String) : Option (List Nat) :=
  (parseEntries bytes.length bytes).lookup (utf8Encode name)

theorem readLE16_le16 (n : Nat) (r : List Nat) :
    readLE16 (le16 n ++ r) = some (n % 65536, r) := by
  simp only [le16, List.cons_append, List.nil_append, readLE16,
    Option.some.injEq, Prod.mk.injEq]
  exact ⟨by omega, trivial⟩

theorem readLE32_le32 (n : Nat) (r : List Nat) :
    readLE32 (le32 n ++ r) = some (n % 4294967296, r) := by
  simp only [le32, List.cons_append, List.nil_append, readLE32,
    Option.some.injEq, Prod.mk.injEq]
  exact ⟨by omega, trivial⟩

theorem parseEntry_zipLocal (t d : Nat) (e : List Nat × List Nat) (rest : List Nat)
    (hname : e.1.length < 65536) (hdata : e.2.length < 4294967296) :
    parseEntry (zipLocal t d e ++ rest) = some (e, rest) := by
  simp only [zipLocal, List.cons_append, List.nil_append, List.append_assoc]
  rw [parseEntry]
  rw [readLE16_le16]
  simp only [Option.some_bind]
  rw [readLE16_le16]
  simp only [Option.some_bind]
  rw [readLE16_le16]
  simp only [Option.some_bind]
  rw [readLE16_le16]
  simp only [Option.some_bind]
  rw [readLE16_le16]
  simp only [Option.some_bind]
  rw [readLE32_le32]
  simp only [Option.some_bind]
  rw [readLE32_le32]
  simp only [Option.some_bind]
  rw [readLE32_le32]
  simp only [Option.some_bind]
  rw [readLE16_le16]
  simp only [Option.some_bind]
  rw [readLE16_le16]
  simp only [Option.some_bind]
  have hn : e.1.length % 65536 = e.1.length := Nat.mod_eq_of_lt hname
  have hd : e.2.length % 4294967296 = e.2.length := Nat.mod_eq_of_lt hdata
  rw [hn, hd]
  rw [if_pos (by simp only [List.length_append]; omega)]
  rw [show (0 : Nat) % 65536 = 0 from rfl]
  rw [List.take_left' rfl]
  rw [Nat.add_zero]
  have hd1 : (e.1 ++ (e.2 ++ rest)).drop e.1.length = e.2 ++ rest := List.drop_left' rfl
  rw [hd1]
  rw [List.take_left' rfl, List.drop_left' rfl]

theorem parseEntry_zipCentrals_zipEnd (t d offset : Nat) (es : List (List Nat × List Nat))
    (c s o : Nat) :
    parseEntry (zipCentrals t d offset es ++ zipEnd c s o) = none := by
  cases es with
  | nil => rfl
  | cons e es => rfl

theorem parseEntries_zipLocals (t d : Nat) (es : List (List Nat × List Nat)) (tl : List Nat)
    (htl : parseEntry tl = none)
    (hok : ∀ e ∈ es, e.1.length < 65536 ∧ e.2.length < 4294967296) :
    ∀ fuel, es.length ≤ fuel → parseEntries fuel (zipLocals t d es ++ tl) = es := by
  induction es with
  | nil =>
    intro fuel _
    show parseEntries fuel ([] ++ tl) = []
    rw [List.nil_append]
    cases fuel with
    | zero => rfl
    | succ f => rw [parseEntries, htl]
  | cons e es ih =>
    intro fuel hfuel
    cases fuel with
    | zero => simp at hfuel
    | succ f =>
      show parseEntries (f + 1) (zipLocal t d e ++ zipLocals t d es ++ tl) = e :: es
      rw [List.append_assoc, parseEntries,
        parseEntry_zipLocal t d e _ (hok e (by simp)).1 (hok e (by simp)).2]
      show e :: parseEntries f (zipLocals t d es ++ tl) = e :: es
      rw [ih (fun x hx => hok x (by simp [hx])) f (by simp at hfuel; omega)]

theorem zipLocals_length_ge (t d : Nat) (es : List (List Nat × List Nat)) :
    es.length ≤ (zipLocals t d es).length := by
  induction es with
  | nil => simp [zipLocals]
  | cons e es ih =>
    show (e :: es).length ≤ (zipLocal t d e ++ zipLocals t d es).length
    simp only [List.length_cons, List.length_append]
    have : 1 ≤ (zipLocal t d e).length := by
      simp [zipLocal]
    omega

/-- Parsing a generated archive returns exactly the entries it was built
from. -/
theorem parseEntries_zipGenerate (t d : Nat) (es : List (List Nat × List Nat))
    (hok : ∀ e ∈ es, e.1.length < 65536 ∧ e.2.length < 4294967296) :
    parseEntries (zipGenerate t d es).length (zipGenerate t d es) = es := by
  unfold zipGenerate
  rw [List.append_assoc]
  refine parseEntries_zipLocals t d es _ (parseEntry_zipCentrals_zipEnd t d 0 es _ _ _) hok _ ?_
  have h1 := zipLocals_length_ge t d es
  simp only [List.length_append]
  omega

/-- Extraction from a generated archive is lookup among its entries. -/
theorem zipExtract_zipGenerate (t d : Nat) (es : List (List Nat × List Nat)) (name : String)
    (hok : ∀ e ∈ es, e.1.length < 65536 ∧ e.2.length < 4294967296) :
    zipExtract (zipGenerate t d es) name = es.lookup (utf8Encode name) := by
  unfold zipExtract
  rw [parseEntries_zipGenerate t d es hok]

theorem le16_lt (n : Nat) : ∀ b ∈ le16 n, b < 256 := by
  intro b hb
  simp only [le16, List.mem_cons, List.not_mem_nil, or_false] at hb
  rcases hb with hb | hb <;> omega

theorem le32_lt (n : Nat) : ∀ b ∈ le32 n, b < 256 := by
  intro b hb
  simp only [le32, List.mem_cons, List.not_mem_nil, or_false] at hb
  rcases hb with hb | hb | hb | hb <;> omega

theorem zipLocal_lt {t d : Nat} {e : List Nat × List Nat}
    (he1 : ∀ x ∈ e.1, x < 256) (he2 : ∀ x ∈ e.2, x < 256) :
    ∀ b ∈ zipLocal t d e, b < 256 := by
  intro b hb
  simp only [zipLocal, le16, le32, List.mem_append, List.mem_cons,
    List.not_mem_nil, or_false] at hb
  repeat' rcases hb with hb | hb
  all_goals first
    | exact he1 _ hb
    | exact he2 _ hb
    | omega

theorem zipCentral_lt {t d offset : Nat} {e : List Nat × List Nat}
    (he1 : ∀ x ∈ e.1, x < 256) :
    ∀ b ∈ zipCentral t d offset e, b < 256 := by
  intro b hb
  simp only [zipCentral, le16, le32, List.mem_append, List.mem_cons,
    List.not_mem_nil, or_false] at hb
  repeat' rcases hb with hb | hb
  all_goals first
    | exact he1 _ hb
    | omega

theorem zipEnd_lt (c sz o : Nat) : ∀ b ∈ zipEnd c sz o, b < 256 := by
  intro b hb
  simp only [zipEnd, le16, le32, List.mem_append, List.mem_cons,
    List.not_mem_nil, or_false] at hb
  repeat' rcases hb with hb | hb
  all_goals omega

theorem zipLocals_lt {t d : Nat} {es : List (List Nat × List Nat)}
    (hes : ∀ e ∈ es, (∀ x ∈ e.1, x < 256) ∧ (∀ x ∈ e.2, x < 256)) :
    ∀ b ∈ zipLocals t d es, b < 256 := by
  induction es with
  | nil => simp [zipLocals]
  | cons e es ih =>
    intro b h
    simp only [zipLocals, List.mem_append] at h
    rcases h with h | h
    · exact zipLocal_lt (hes e (by simp)).1 (hes e (by simp)).2 _ h
    · exact ih (fun x hx => hes x (by simp [hx])) _ h

theorem zipCentrals_lt {t d : Nat} {es : List (List Nat × List Nat)}
    (hes : ∀ e ∈ es, (∀ x ∈ e.1, x < 256) ∧ (∀ x ∈ e.2, x < 256)) :
    ∀ offset, ∀ b ∈ zipCentrals t d offset es, b < 256 := by
  induction es with
  | nil => simp [zipCentrals]
  | cons e es ih =>
    intro offset b h
    simp only [zipCentrals, List.mem_append] at h
    rcases h with h | h
    · exact zipCentral_lt (hes e (by simp)).1 _ h
    · exact ih (fun x hx => hes x (by simp [hx])) _ _ h

theorem zipGenerate_lt {t d : Nat} {es : List (List Nat × List Nat)}
    (hes : ∀ e ∈ es, (∀ x ∈ e.1, x < 256) ∧ (∀ x ∈ e.2, x < 256)) :
    ∀ b ∈ zipGenerate t d es, b < 256 := by
  intro b hb
  simp only [zipGenerate, List.mem_append] at hb
  rcases hb with (h | h) | h
  · exact zipLocals_lt hes _ h
  · exact zipCentrals_lt hes _ _ h
  · exact zipEnd_lt _ _ _ _ h

/-! ## Site renderer (`buildHtml` in `src/page.tsx`)

The template literal is translated segment by segment; the current year
(`new Date().getFullYear()`) is an explicit `year` parameter. -/

/-- The generation result record edited in the page (type `GenResult` in
`src/page.tsx`). -/
structure GenResult where
  headline : String
  subheadline : String
  about : String
  services : List String
  cta : String
  keywords : List String
  color : String
  imageUrl : String

/-- Template up to the `<title>` interpolation. -/
def tpl1 : String :=
  "<!doctype html>\n<html lang=\"en\">\n<head>\n  <meta charset=\"utf-8\" />\n  <meta name=\"viewport\" content=\"width=device-width, initial-scale=1\" />\n  <title>"

/-- Template from `</title>` to the hero gradient colour. -/
def tpl2 : String :=
  "</title>\n  <style>\n    body \x7b font-family: system-ui, -apple-system, Segoe UI, Roboto, Inter, sans-serif; margin:0; color:#111; \x7d\n    .hero\x7b background: linear-gradient(135deg, "

/-- Template between the two colour interpolations (gradient tail through
`.btn` background). -/
def tpl3 : String :=
  ", #111827); color:white; padding:64px 20px; \x7d\n    .container\x7b max-width: 960px; margin:0 auto; padding:0 16px; \x7d\n    .card\x7b background:#fff; border-radius:16px; box-shadow:0 8px 30px rgba(0,0,0,.08); padding:24px; margin:16px 0; \x7d\n    .btn\x7b background:"

/-- Template from after the button colour to the `<h1>` interpolation. -/
def tpl4 : String :=
  "; color:white; border-radius:10px; padding:12px 18px; text-decoration:none; display:inline-block; \x7d\n    .services li \x7b margin: 6px 0; \x7d\n    .hero-img \x7b width:100%; border-radius:16px; margin-top:16px; \x7d\n  </style>\n</head>\n<body>\n  <header class=\"hero\">\n    <div class=\"container\">\n      <h1>"

/-- Template between headline and subheadline. -/
def tpl5 : String :=
  "</h1>\n      <p>"

/-- Template between subheadline and the call-to-action. -/
def tpl6 : String :=
  "</p>\n      <a href=\"https://wa.me/9580378761\" class=\"btn\">"

/-- Template between the call-to-action and the image URL. -/
def tpl7 : String :=
  "</a>\n      <img class=\"hero-img\" src=\""

/-- Template between the image URL and the about text. -/
def tpl8 : String :=
  "\" alt=\"hero\" />\n    </div>\n  </header>\n  <main class=\"container\">\n    <section class=\"card\">\n      <h2>About Us</h2>\n      <p>"

/-- Template between the about text and the services list. -/
def tpl9 : String :=
  "</p>\n    </section>\n    <section class=\"card\">\n      <h2>Our Services</h2>\n      <ul class=\"services\">\n        "

/-- Template between the services list and the footer year. -/
def tpl10 : String :=
  "\n      </ul>\n    </section>\n  </main>\n  <footer class=\"container\" style=\"padding:32px 16px;opacity:.7;\">\n    © "

/-- Template tail after the footer headline. -/
def tpl11 : String :=
  "\n  </footer>\n</body>\n</html>"

/-- One rendered service list item (`<li>• ${s}</li>`). -/
def serviceItem (s : String) : String :=
  "<li>• " ++ s ++ "</li>"

/-- Concatenation of a list of strings (`.join('')`). -/
def joinStrings : List String → String
  | [] => ""
  | x :: xs => x ++ joinStrings xs

/-- The site renderer `buildHtml` of `src/page.tsx`, with the clock's year
as an explicit argument. -/
def buildHtml (data : GenResult) (year : Nat) : String :=
  tpl1 ++ (data.headline ++ (tpl2 ++ (data.color ++ (tpl3 ++ (data.color ++ (tpl4 ++
    (data.headline ++ (tpl5 ++ (data.subheadline ++ (tpl6 ++
    ((if data.cta = "" then "Contact Us" else data.cta) ++ (tpl7 ++ (data.imageUrl ++ (tpl8 ++
    (data.about ++ (tpl9 ++ (joinStrings (data.services.map serviceItem) ++ (tpl10 ++
    (toString year ++ (" " ++ (data.headline ++ tpl11)))))))))))))))))))))

/-! ## Manifest JSON -/

/-- `JSON.stringify({ name: 'webmake-site', version: '1.0.0' })` — the
compact serialisation used for the Vercel `package.json` file entry
(`src/route.ts` lines 88–89). -/
def manifestCompact : String :=
  "\x7b\"name\":\"webmake-site\",\"version\":\"1.0.0\"\x7d"

/-- `JSON.stringify({ name: 'webmake-site', version: '1.0.0' }, null, 2)` —
the pretty-printed serialisation stored in the ZIP archive
(`src/route.ts` line 27). -/
def manifestPretty : String :=
  "\x7b\n  \"name\": \"webmake-site\",\n  \"version\": \"1.0.0\"\n\x7d"

/-- Drop leading JSON whitespace. -/
def skipWs : List Char → List Char
  | c :: r => if c = ' ' ∨ c = '\n' ∨ c = '\t' ∨ c = '\r' then skipWs r else c :: r
  | [] => []

/-- Read the characters of a JSON string up to the closing quote (no escape
sequences). -/
def jstrChars : List Char → Option (List Char × List Char)
  | [] => none
  | c :: r =>
    if c = '"' then some ([], r)
    else (jstrChars r).map fun p => (c :: p.1, p.2)

/-- Parse a JSON string literal. -/
def parseJString : List Char → Option (String × List Char)
  | c :: r => if c = '"' then (jstrChars r).map fun p => (String.mk p.1, p.2) else none
  | [] => none

/-- Parse the `"key": "value"` pairs of a JSON object of strings, up to and
including the closing brace. -/
def parsePairs : Nat → List Char → Option (List (String × String) × List Char)
  | 0, _ => none
  | fuel + 1, l =>
    (parseJString (skipWs l)).bind fun k =>
    match skipWs k.2 with
    | ':' :: r2 =>
      (parseJString (skipWs r2)).bind fun v =>
      match skipWs v.2 with
      | ',' :: r3 => (parsePairs fuel r3).map fun p => ((k.1, v.1) :: p.1, p.2)
      | c :: r3 => if c = '\x7d' then some ([(k.1, v.1)], r3) else none
      | [] => none
    | _ => none

/-- Parse a JSON object whose values are all strings. -/
def parseStrObj (s : String) : Option (List (String × String)) :=
  match skipWs s.data with
  | c :: r =>
    if c = '\x7b' then
      (parsePairs s.data.length r).bind fun p =>
        match skipWs p.2 with
        | [] => some p.1
        | _ => none
    else none
  | [] => none

/-- JSON-decode a `{name, version}` manifest. -/
def parseManifest (s : String) : Option (String × String) :=
  (parseStrObj s).bind fun pairs =>
    (pairs.lookup "name").bind fun n =>
    (pairs.lookup "version").map fun v => (n, v)

/-- Both manifest serialisations decode to the same `{name, version}`
object. -/
theorem parseManifest_both :
    parseManifest manifestPretty = some ("webmake-site", "1.0.0") ∧
      parseManifest manifestCompact = some ("webmake-site", "1.0.0") := by
  constructor <;> decide

/-! ## Publish orchestrator (`POST` in `src/route.ts`) -/

/-- The environment variables the route reads (process-wide configuration).
`none` models an unset variable. -/
structure Env where
  NETLIFY_TOKEN : Option String
  NETLIFY_SITE_ID : Option String
  VERCEL_TOKEN : Option String
  VERCEL_PROJECT_ID : Option String
  VERCEL_TEAM_ID : Option String

/-- The clock: `Date.now()` milliseconds and the DOS time/date stamped into
the ZIP archive. -/
structure Clock where
  nowMillis : Nat
  dosTime : Nat
  dosDate : Nat

/-- The response a provider endpoint would return to the route's `fetch`:
HTTP status, raw body text, and the JSON fields the route reads. -/
structure FetchResponse where
  status : Nat
  text : String
  deploy_url : Option String := none
  url : Option String := none
  inspectorUrl : Option String := none

/-- `Response.ok`: status in the 2xx range. -/
def FetchResponse.ok (r : FetchResponse) : Bool :=
  200 ≤ r.status && r.status < 300

/-- One file definition of the Vercel deployment payload. -/
structure VercelFile where
  file : String
  data : String
  sha : String
deriving DecidableEq

/-- The JSON body sent to `https://api.vercel.com/v13/deployments`. -/
structure VercelPayload where
  name : String
  project : String
  files : List VercelFile
  target : String
  teamId : Option String
deriving DecidableEq

/-- An outbound network call made by the route. -/
inductive OutboundCall where
  | netlifyDeploy (siteId token : String) (zipBytes : List Nat)
  | vercelDeploy (token : String) (payload : VercelPayload)
deriving DecidableEq

/-- The JSON body of the route's own response; `none` marks an absent
field. -/
structure PublishBody where
  url : Option String := none
  message : Option String := none
  zipBase64 : Option String := none
  error : Option String := none
  details : Option String := none
deriving DecidableEq

/-- The route's HTTP response. -/
structure HttpResponse where
  status : Nat
  body : PublishBody
deriving DecidableEq

/-- The observable outcome of one route invocation: the HTTP response, the
outbound calls performed, and whether the archive was built. -/
structure PostResult where
  response : HttpResponse
  calls : List OutboundCall
  archiveBuilt : Bool
deriving DecidableEq

/-- The parsed request body `{ html, provider }`; `none` models an absent
field. -/
structure PublishRequest where
  html : Option String
  provider : Option String

/-- The two entries of the deployable archive (`zip.file(...)` at
`src/route.ts` lines 25 and 27): the provided HTML and the pretty-printed
manifest. -/
def archiveEntries (html : String) : List (List Nat × List Nat) :=
  [(utf8Encode "index.html", utf8Encode html),
    (utf8Encode "package.json", utf8Encode manifestPretty)]

/-- The `files` array of the Vercel deployment payload (`src/route.ts`
lines 80–91). -/
def vercelFiles (html : String) : List VercelFile :=
  [{ file := "index.html",
     data := String.mk (base64Encode (utf8Encode html)),
     sha := sha1Hex (utf8Encode html) },
   { file := "package.json",
     data := String.mk (base64Encode (utf8Encode manifestCompact)),
     sha := sha1Hex (utf8Encode manifestCompact) }]

/-- The netlify fallback message (`src/route.ts` line 38). -/
def netlifyFallbackMsg : String :=
  "NETLIFY_TOKEN and NETLIFY_SITE_ID must be set as environment variables to deploy."

/-- The vercel fallback message (`src/route.ts` line 72). -/
def vercelFallbackMsg : String :=
  "VERCEL_TOKEN and VERCEL_PROJECT_ID must be set as environment variables to deploy."

/-- Build a `PostResult` (a `NextResponse.json(body, { status })` plus the
observable side effects). -/
def mkResult (status : Nat) (body : PublishBody) (calls : List OutboundCall)
    (built : Bool) : PostResult :=
  { response := { status := status, body := body }, calls := calls, archiveBuilt := built }

/-- The `POST` handler of `src/route.ts`.  `req` is the result of
`request.json()` (`Except.error` models a thrown parse error, caught by the
route's `catch`); `netRes`/`vercRes` are the responses the respective
provider endpoint would give to the route's single outbound call. -/
def POST (req : Except String PublishRequest) (env : Env) (clock : Clock)
    (netRes vercRes : FetchResponse) : PostResult :=
  match req with
  | .error msg =>
    mkResult 500 { error := some "Server error", details := some msg } [] false
  | .ok r =>
    if ¬ (truthy r.html ∧ truthy r.provider) then
      mkResult 400 { error := some "Missing html or provider" } [] false
    else
      let html := r.html.getD ""
      let zipped := zipGenerate clock.dosTime clock.dosDate (archiveEntries html)
      if r.provider = some "netlify" then
        if ¬ (truthy env.NETLIFY_TOKEN ∧ truthy env.NETLIFY_SITE_ID) then
          mkResult 200
            { message := some netlifyFallbackMsg,
              zipBase64 := some (String.mk (base64Encode zipped)) } [] true
        else
          let call := OutboundCall.netlifyDeploy (env.NETLIFY_SITE_ID.getD "")
            (env.NETLIFY_TOKEN.getD "") zipped
          if ¬ netRes.ok then
            mkResult 500
              { error := some "Netlify deploy failed", details := some netRes.text }
              [call] true
          else
            mkResult 200 { url := jsOr netRes.deploy_url netRes.url } [call] true
      else if r.provider = some "vercel" then
        if ¬ (truthy env.VERCEL_TOKEN ∧ truthy env.VERCEL_PROJECT_ID) then
          mkResult 200
            { message := some vercelFallbackMsg,
              zipBase64 := some (String.mk (base64Encode zipped)) } [] true
        else
          let payload : VercelPayload :=
            { name := "webmake-site-" ++ toString clock.nowMillis,
              project := env.VERCEL_PROJECT_ID.getD "",
              files := vercelFiles html,
              target := "production",
              teamId := if truthy env.VERCEL_TEAM_ID then env.VERCEL_TEAM_ID else none }
          let call := OutboundCall.vercelDeploy (env.VERCEL_TOKEN.getD "") payload
          if ¬ vercRes.ok then
            mkResult 500
              { error := some "Vercel deploy failed", details := some vercRes.text }
              [call] true
          else
            mkResult 200 { url := jsOr vercRes.url vercRes.inspectorUrl } [call] true
      else
        mkResult 400 { error := some "Unknown provider" } [] true

/-! ## Helper lemmas for the claim theorems -/

theorem utf8Encode_lt_256 {s : String} : ∀ b ∈ utf8Encode s, b < 256 := by
  intro b hb
  unfold utf8Encode at hb
  rw [List.mem_flatten] at hb
  obtain ⟨l, hl, hbl⟩ := hb
  rw [List.mem_map] at hl
  obtain ⟨c, _, rfl⟩ := hl
  exact utf8Char_lt_256 hbl

theorem string_data_append (a b : String) : (a ++ b).data = a.data ++ b.data := by
  cases a
  cases b
  rfl

theorem archiveEntries_lookup_index (html : String) :
    (archiveEntries html).lookup (utf8Encode "index.html") = some (utf8Encode html) := by
  have h : (utf8Encode "index.html" == utf8Encode "index.html") = true := by decide
  simp [archiveEntries, List.lookup, h]

theorem archiveEntries_lookup_manifest (html : String) :
    (archiveEntries html).lookup (utf8Encode "package.json") = some (utf8Encode manifestPretty) := by
  have h1 : (utf8Encode "package.json" == utf8Encode "index.html") = false := by decide
  have h2 : (utf8Encode "package.json" == utf8Encode "package.json") = true := by decide
  simp [archiveEntries, List.lookup, h1, h2]

/-- `p` occurs as a contiguous segment of `s`. -/
def containsSeg (p s : String) : Prop :=
  ∃ l r : List Char, s.data = l ++ p.data ++ r

theorem containsSeg_refl (p : String) : containsSeg p p :=
  ⟨[], [], by simp⟩

theorem containsSeg_left {p s : String} (t : String) (h : containsSeg p s) :
    containsSeg p (s ++ t) := by
  obtain ⟨l, r, hs⟩ := h
  exact ⟨l, r ++ t.data, by simp [string_data_append, hs]⟩

theorem containsSeg_right (s : String) {p t : String} (h : containsSeg p t) :
    containsSeg p (s ++ t) := by
  obtain ⟨l, r, ht⟩ := h
  exact ⟨s.data ++ l, r, by simp [string_data_append, ht]⟩

theorem containsSeg_joinStrings {p : String} {l : List String} (hp : p ∈ l) :
    containsSeg p (joinStrings l) := by
  induction l with
  | nil => cases hp
  | cons x xs ih =>
    rcases List.mem_cons.mp hp with rfl | hmem
    · exact containsSeg_left _ (containsSeg_refl p)
    · exact containsSeg_right x (ih hmem)

/-! ## Branch evaluation lemmas for `POST` -/

theorem POST_netlify_fallback (html : String) (env : Env) (clock : Clock)
    (netRes vercRes : FetchResponse)
    (hh : truthy (some html) = true)
    (hc : ¬ (truthy env.NETLIFY_TOKEN ∧ truthy env.NETLIFY_SITE_ID)) :
    POST (.ok ⟨some html, some "netlify"⟩) env clock netRes vercRes =
      mkResult 200
        { message := some netlifyFallbackMsg,
          zipBase64 := some (String.mk (base64Encode
            (zipGenerate clock.dosTime clock.dosDate (archiveEntries html)))) } [] true := by
  simp only [POST]
  rw [if_neg (not_not_intro ⟨hh, by decide⟩), if_true, if_pos hc]
  rfl

theorem POST_netlify_deploy (html : String) (env : Env) (clock : Clock)
    (netRes vercRes : FetchResponse)
    (hh : truthy (some html) = true)
    (ht : truthy env.NETLIFY_TOKEN = true) (hs : truthy env.NETLIFY_SITE_ID = true) :
    POST (.ok ⟨some html, some "netlify"⟩) env clock netRes vercRes =
      (if netRes.ok = true then
        mkResult 200 { url := jsOr netRes.deploy_url netRes.url }
          [OutboundCall.netlifyDeploy (env.NETLIFY_SITE_ID.getD "") (env.NETLIFY_TOKEN.getD "")
            (zipGenerate clock.dosTime clock.dosDate (archiveEntries html))] true
      else
        mkResult 500 { error := some "Netlify deploy failed", details := some netRes.text }
          [OutboundCall.netlifyDeploy (env.NETLIFY_SITE_ID.getD "") (env.NETLIFY_TOKEN.getD "")
            (zipGenerate clock.dosTime clock.dosDate (archiveEntries html))] true) := by
  simp only [POST]
  rw [if_neg (not_not_intro ⟨hh, by decide⟩), if_true,
    if_neg (not_not_intro ⟨ht, hs⟩)]
  by_cases hok : netRes.ok = true <;> simp [hok]

theorem POST_vercel_fallback (html : String) (env : Env) (clock : Clock)
    (netRes vercRes : FetchResponse)
    (hh : truthy (some html) = true)
    (hc : ¬ (truthy env.VERCEL_TOKEN ∧ truthy env.VERCEL_PROJECT_ID)) :
    POST (.ok ⟨some html, some "vercel"⟩) env clock netRes vercRes =
      mkResult 200
        { message := some vercelFallbackMsg,
          zipBase64 := some (String.mk (base64Encode
            (zipGenerate clock.dosTime clock.dosDate (archiveEntries html)))) } [] true := by
  simp only [POST]
  rw [if_neg (not_not_intro ⟨hh, by decide⟩),
    if_neg (show ¬((some "vercel" : Option String) = some "netlify") from by decide),
    if_true, if_pos hc]
  rfl

/-- The payload the vercel branch sends. -/
def vercelPayload (html : String) (env : Env) (clock : Clock) : VercelPayload :=
  { name := "webmake-site-" ++ toString clock.nowMillis,
    project := env.VERCEL_PROJECT_ID.getD "",
    files := vercelFiles html,
    target := "production",
    teamId := if truthy env.VERCEL_TEAM_ID then env.VERCEL_TEAM_ID else none }

theorem POST_vercel_deploy (html : String) (env : Env) (clock : Clock)
    (netRes vercRes : FetchResponse)
    (hh : truthy (some html) = true)
    (ht : truthy env.VERCEL_TOKEN = true) (hp : truthy env.VERCEL_PROJECT_ID = true) :
    POST (.ok ⟨some html, some "vercel"⟩) env clock netRes vercRes =
      (if vercRes.ok = true then
        mkResult 200 { url := jsOr vercRes.url vercRes.inspectorUrl }
          [OutboundCall.vercelDeploy (env.VERCEL_TOKEN.getD "") (vercelPayload html env clock)]
          true
      else
        mkResult 500 { error := some "Vercel deploy failed", details := some vercRes.text }
          [OutboundCall.vercelDeploy (env.VERCEL_TOKEN.getD "") (vercelPayload html env clock)]
          true) := by
  simp only [POST, vercelPayload]
  rw [if_neg (not_not_intro ⟨hh, by decide⟩),
    if_neg (show ¬((some "vercel" : Option String) = some "netlify") from by decide),
    if_true, if_neg (not_not_intro ⟨ht, hp⟩)]
  by_cases hok : vercRes.ok = true <;> simp [hok]

/-! ## Concrete fixtures for witnesses -/

/-- All provider credentials unset. -/
def envNone : Env :=
  { NETLIFY_TOKEN := none, NETLIFY_SITE_ID := none, VERCEL_TOKEN := none,
    VERCEL_PROJECT_ID := none, VERCEL_TEAM_ID := none }

/-- All provider credentials set. -/
def envAll : Env :=
  { NETLIFY_TOKEN := some "ntok", NETLIFY_SITE_ID := some "nsite", VERCEL_TOKEN := some "vtok",
    VERCEL_PROJECT_ID := some "vproj", VERCEL_TEAM_ID := none }

/-- A fixed clock. -/
def clock0 : Clock :=
  { nowMillis := 0, dosTime := 0, dosDate := 0 }

/-- A successful provider response. -/
def fetch200 : FetchResponse :=
  { status := 200, text := "", deploy_url := some "https://example.netlify.app",
    url := some "https://example.vercel.app" }

/-- A failing provider response. -/
def fetch500 : FetchResponse :=
  { status := 500, text := "quota exceeded" }

/-! ## Claim theorems -/

/-- **C6**: a request with missing (or JS-falsy) `html` or `provider` is
answered with HTTP 400 and the `Missing html or provider` error, before the
archive is built and with no outbound call. -/
theorem post_invalid_request (r : PublishRequest) (env : Env) (clock : Clock)
    (netRes vercRes : FetchResponse) (h : ¬ (truthy r.html ∧ truthy r.provider)) :
    (POST (.ok r) env clock netRes vercRes).response.status = 400 ∧
    (POST (.ok r) env clock netRes vercRes).response.body.error =
      some "Missing html or provider" ∧
    (POST (.ok r) env clock netRes vercRes).archiveBuilt = false ∧
    (POST (.ok r) env clock netRes vercRes).calls = [] := by
  simp [POST, mkResult, h]

theorem post_invalid_request_witness :
    (POST (.ok ⟨none, some "netlify"⟩) envNone clock0 fetch500 fetch500).response.status = 400 ∧
    (POST (.ok ⟨none, some "netlify"⟩) envNone clock0 fetch500 fetch500).response.body.error =
      some "Missing html or provider" ∧
    (POST (.ok ⟨none, some "netlify"⟩) envNone clock0 fetch500 fetch500).archiveBuilt = false ∧
    (POST (.ok ⟨none, some "netlify"⟩) envNone clock0 fetch500 fetch500).calls = [] :=
  post_invalid_request ⟨none, some "netlify"⟩ envNone clock0 fetch500 fetch500 (by decide)

/-- **C9**: a present-but-empty `html` is treated exactly like a missing
one: HTTP 400, `Missing html or provider`, no archive, no outbound call —
for every provider value, environment and clock. -/
theorem post_empty_html (provider : Option String) (env : Env) (clock : Clock)
    (netRes vercRes : FetchResponse) :
    (POST (.ok ⟨some "", provider⟩) env clock netRes vercRes).response.status = 400 ∧
    (POST (.ok ⟨some "", provider⟩) env clock netRes vercRes).response.body.error =
      some "Missing html or provider" ∧
    (POST (.ok ⟨some "", provider⟩) env clock netRes vercRes).archiveBuilt = false ∧
    (POST (.ok ⟨some "", provider⟩) env clock netRes vercRes).calls = [] := by
  have h : ¬ (truthy (some "") ∧ truthy provider) := by
    simp [truthy]
  exact post_invalid_request ⟨some "", provider⟩ env clock netRes vercRes h

/-- **C7**: a truthy request naming a provider other than `netlify` or
`vercel` is answered with HTTP 400 and `Unknown provider`, with no outbound
call. -/
theorem post_unknown_provider (r : PublishRequest) (env : Env) (clock : Clock)
    (netRes vercRes : FetchResponse)
    (hh : truthy r.html = true) (hp : truthy r.provider = true)
    (hn : r.provider ≠ some "netlify") (hv : r.provider ≠ some "vercel") :
    (POST (.ok r) env clock netRes vercRes).response.status = 400 ∧
    (POST (.ok r) env clock netRes vercRes).response.body.error = some "Unknown provider" ∧
    (POST (.ok r) env clock netRes vercRes).calls = [] := by
  simp [POST, mkResult, hh, hp, hn, hv]

theorem post_unknown_provider_witness :
    (POST (.ok ⟨some "<p>x</p>", some "bogus"⟩) envAll clock0 fetch200 fetch200).response.status
      = 400 ∧
    (POST (.ok ⟨some "<p>x</p>", some "bogus"⟩) envAll clock0 fetch200 fetch200).response.body.error
      = some "Unknown provider" ∧
    (POST (.ok ⟨some "<p>x</p>", some "bogus"⟩) envAll clock0 fetch200 fetch200).calls = [] :=
  post_unknown_provider ⟨some "<p>x</p>", some "bogus"⟩ envAll clock0 fetch200 fetch200
    (by decide) (by decide) (by decide) (by decide)

/-- **C10**: when credentials are missing, the Fallback response carries
HTTP status 200 — the same status as the Success path — with `zipBase64`
present and `url` absent, so only the body distinguishes the two. -/
theorem post_fallback_status (html : String) (env : Env) (clock : Clock)
    (netRes vercRes : FetchResponse) (hh : truthy (some html) = true) :
    (¬ (truthy env.NETLIFY_TOKEN ∧ truthy env.NETLIFY_SITE_ID) →
      (POST (.ok ⟨some html, some "netlify"⟩) env clock netRes vercRes).response.status = 200 ∧
      (POST (.ok ⟨some html, some "netlify"⟩) env clock netRes
        vercRes).response.body.zipBase64.isSome = true ∧
      (POST (.ok ⟨some html, some "netlify"⟩) env clock netRes vercRes).response.body.url
        = none) ∧
    (¬ (truthy env.VERCEL_TOKEN ∧ truthy env.VERCEL_PROJECT_ID) →
      (POST (.ok ⟨some html, some "vercel"⟩) env clock netRes vercRes).response.status = 200 ∧
      (POST (.ok ⟨some html, some "vercel"⟩) env clock netRes
        vercRes).response.body.zipBase64.isSome = true ∧
      (POST (.ok ⟨some html, some "vercel"⟩) env clock netRes vercRes).response.body.url
        = none) ∧
    (truthy env.NETLIFY_TOKEN ∧ truthy env.NETLIFY_SITE_ID → netRes.ok = true →
      (POST (.ok ⟨some html, some "netlify"⟩) env clock netRes vercRes).response.status = 200 ∧
      (POST (.ok ⟨some html, some "netlify"⟩) env clock netRes vercRes).response.body.zipBase64
        = none) ∧
    (truthy env.VERCEL_TOKEN ∧ truthy env.VERCEL_PROJECT_ID → vercRes.ok = true →
      (POST (.ok ⟨some html, some "vercel"⟩) env clock netRes vercRes).response.status = 200 ∧
      (POST (.ok ⟨some html, some "vercel"⟩) env clock netRes vercRes).response.body.zipBase64
        = none) := by
  refine ⟨fun hc => ?_, fun hc => ?_, fun hc hok => ?_, fun hc hok => ?_⟩
  · rw [POST_netlify_fallback html env clock netRes vercRes hh hc]
    simp [mkResult]
  · rw [POST_vercel_fallback html env clock netRes vercRes hh hc]
    simp [mkResult]
  · rw [POST_netlify_deploy html env clock netRes vercRes hh hc.1 hc.2, if_pos hok]
    simp [mkResult]
  · rw [POST_vercel_deploy html env clock netRes vercRes hh hc.1 hc.2, if_pos hok]
    simp [mkResult]

theorem post_fallback_status_witness :
    (POST (.ok ⟨some "<p>x</p>", some "netlify"⟩) envNone clock0 fetch200
      fetch200).response.status = 200 ∧
    (POST (.ok ⟨some "<p>x</p>", some "netlify"⟩) envNone clock0 fetch200
      fetch200).response.body.zipBase64.isSome = true ∧
    (POST (.ok ⟨some "<p>x</p>", some "netlify"⟩) envNone clock0 fetch200
      fetch200).response.body.url = none :=
  (post_fallback_status "<p>x</p>" envNone clock0 fetch200 fetch200 (by decide)).1 (by decide)

/-- **C5**: with credentials present and a non-2xx provider response, both
provider paths answer with outer HTTP status 500, the provider-specific
`... deploy failed` error and the raw response body as `details`, and no
`url`, `zipBase64` or `message` field (no Success, no Fallback). -/
theorem post_deploy_error (html : String) (env : Env) (clock : Clock)
    (netRes vercRes : FetchResponse) (hh : truthy (some html) = true) :
    (truthy env.NETLIFY_TOKEN = true → truthy env.NETLIFY_SITE_ID = true →
      ¬ (200 ≤ netRes.status ∧ netRes.status < 300) →
      (POST (.ok ⟨some html, some "netlify"⟩) env clock netRes vercRes).response.status = 500 ∧
      (POST (.ok ⟨some html, some "netlify"⟩) env clock netRes vercRes).response.body.error =
        some "Netlify deploy failed" ∧
      (POST (.ok ⟨some html, some "netlify"⟩) env clock netRes vercRes).response.body.details =
        some netRes.text ∧
      (POST (.ok ⟨some html, some "netlify"⟩) env clock netRes vercRes).response.body.url
        = none ∧
      (POST (.ok ⟨some html, some "netlify"⟩) env clock netRes vercRes).response.body.zipBase64
        = none ∧
      (POST (.ok ⟨some html, some "netlify"⟩) env clock netRes vercRes).response.body.message
        = none) ∧
    (truthy env.VERCEL_TOKEN = true → truthy env.VERCEL_PROJECT_ID = true →
      ¬ (200 ≤ vercRes.status ∧ vercRes.status < 300) →
      (POST (.ok ⟨some html, some "vercel"⟩) env clock netRes vercRes).response.status = 500 ∧
      (POST (.ok ⟨some html, some "vercel"⟩) env clock netRes vercRes).response.body.error =
        some "Vercel deploy failed" ∧
      (POST (.ok ⟨some html, some "vercel"⟩) env clock netRes vercRes).response.body.details =
        some vercRes.text ∧
      (POST (.ok ⟨some html, some "vercel"⟩) env clock netRes vercRes).response.body.url
        = none ∧
      (POST (.ok ⟨some html, some "vercel"⟩) env clock netRes vercRes).response.body.zipBase64
        = none ∧
      (POST (.ok ⟨some html, some "vercel"⟩) env clock netRes vercRes).response.body.message
        = none) := by
  constructor
  · intro ht hs hst
    have hok : ¬ netRes.ok = true := by
      simp only [FetchResponse.ok, Bool.and_eq_true, decide_eq_true_eq]
      exact fun h => hst ⟨h.1, h.2⟩
    rw [POST_netlify_deploy html env clock netRes vercRes hh ht hs, if_neg hok]
    simp [mkResult]
  · intro ht hp hst
    have hok : ¬ vercRes.ok = true := by
      simp only [FetchResponse.ok, Bool.and_eq_true, decide_eq_true_eq]
      exact fun h => hst ⟨h.1, h.2⟩
    rw [POST_vercel_deploy html env clock netRes vercRes hh ht hp, if_neg hok]
    simp [mkResult]

theorem post_deploy_error_witness :
    (POST (.ok ⟨some "<p>x</p>", some "netlify"⟩) envAll clock0 fetch500
      fetch500).response.status = 500 ∧
    (POST (.ok ⟨some "<p>x</p>", some "netlify"⟩) envAll clock0 fetch500
      fetch500).response.body.error = some "Netlify deploy failed" ∧
    (POST (.ok ⟨some "<p>x</p>", some "netlify"⟩) envAll clock0 fetch500
      fetch500).response.body.details = some "quota exceeded" ∧
    (POST (.ok ⟨some "<p>x</p>", some "netlify"⟩) envAll clock0 fetch500
      fetch500).response.body.url = none ∧
    (POST (.ok ⟨some "<p>x</p>", some "netlify"⟩) envAll clock0 fetch500
      fetch500).response.body.zipBase64 = none ∧
    (POST (.ok ⟨some "<p>x</p>", some "netlify"⟩) envAll clock0 fetch500
      fetch500).response.body.message = none :=
  (post_deploy_error "<p>x</p>" envAll clock0 fetch500 fetch500
    (by decide)).1 (by decide) (by decide) (by decide)

/-- **C2**: on the vercel path with credentials set, the deployment payload
is sent in the single outbound call, and its `files` entry for `index.html`
carries `data` equal to the base64 encoding of the html's UTF-8 bytes and
`sha` equal to the SHA-1 hex digest of those same bytes. -/
theorem post_vercel_sha (html : String) (env : Env) (clock : Clock)
    (netRes vercRes : FetchResponse)
    (hh : truthy (some html) = true)
    (ht : truthy env.VERCEL_TOKEN = true) (hp : truthy env.VERCEL_PROJECT_ID = true) :
    ∃ p : VercelPayload,
      (POST (.ok ⟨some html, some "vercel"⟩) env clock netRes vercRes).calls =
        [OutboundCall.vercelDeploy (env.VERCEL_TOKEN.getD "") p] ∧
      p.files.head? = some
        { file := "index.html",
          data := String.mk (base64Encode (utf8Encode html)),
          sha := sha1Hex (utf8Encode html) } := by
  refine ⟨vercelPayload html env clock, ?_, rfl⟩
  rw [POST_vercel_deploy html env clock netRes vercRes hh ht hp]
  by_cases hok : vercRes.ok = true
  · rw [if_pos hok]; rfl
  · rw [if_neg hok]; rfl

theorem post_vercel_sha_witness :
    ∃ p : VercelPayload,
      (POST (.ok ⟨some "<p>x</p>", some "vercel"⟩) envAll clock0 fetch200 fetch200).calls =
        [OutboundCall.vercelDeploy (envAll.VERCEL_TOKEN.getD "") p] ∧
      p.files.head? = some
        { file := "index.html",
          data := String.mk (base64Encode (utf8Encode "<p>x</p>")),
          sha := sha1Hex (utf8Encode "<p>x</p>") } :=
  post_vercel_sha "<p>x</p>" envAll clock0 fetch200 fetch200 (by decide) (by decide) (by decide)

/-- Counterexample to **C3** at html `"<p>x</p>"`: the manifest bytes in
the vercel payload are the compact serialisation, while the archive's
`package.json` entry holds the pretty-printed serialisation, and the two
byte sequences differ. -/
theorem post_vercel_manifest_counterexample :
    ((vercelFiles "<p>x</p>").map VercelFile.data).getD 1 "" =
      String.mk (base64Encode (utf8Encode manifestCompact)) ∧
    ((vercelFiles "<p>x</p>").map VercelFile.sha).getD 1 "" =
      sha1Hex (utf8Encode manifestCompact) ∧
    (archiveEntries "<p>x</p>").lookup (utf8Encode "package.json") =
      some (utf8Encode manifestPretty) ∧
    utf8Encode manifestCompact ≠ utf8Encode manifestPretty ∧
    (POST (.ok ⟨some "<p>x</p>", some "vercel"⟩) envAll clock0 fetch200 fetch200).calls =
      [OutboundCall.vercelDeploy "vtok" (vercelPayload "<p>x</p>" envAll clock0)] := by
  refine ⟨rfl, rfl, by decide, by decide, ?_⟩
  rw [POST_vercel_deploy "<p>x</p>" envAll clock0 fetch200 fetch200
    (by decide) (by decide) (by decide), if_pos (by decide)]
  rfl

/-- **C3 (amended)**: the vercel payload's `package.json` entry carries the
compact manifest serialisation (base64-encoded into `data`, SHA-1-digested
into `sha`), while the archive's `package.json` entry is the pretty-printed
serialisation; the two are not byte-identical but JSON-decode to the same
`{name, version}` object. -/
theorem post_vercel_manifest (html : String) (env : Env) (clock : Clock)
    (netRes vercRes : FetchResponse)
    (hh : truthy (some html) = true)
    (ht : truthy env.VERCEL_TOKEN = true) (hp : truthy env.VERCEL_PROJECT_ID = true) :
    ∃ p : VercelPayload,
      (POST (.ok ⟨some html, some "vercel"⟩) env clock netRes vercRes).calls =
        [OutboundCall.vercelDeploy (env.VERCEL_TOKEN.getD "") p] ∧
      (p.files.map VercelFile.data).getD 1 "" =
        String.mk (base64Encode (utf8Encode manifestCompact)) ∧
      (p.files.map VercelFile.sha).getD 1 "" = sha1Hex (utf8Encode manifestCompact) ∧
      (archiveEntries html).lookup (utf8Encode "package.json") =
        some (utf8Encode manifestPretty) ∧
      utf8Encode manifestCompact ≠ utf8Encode manifestPretty ∧
      base64Decode (base64Encode (utf8Encode manifestCompact)) =
        some (utf8Encode manifestCompact) ∧
      parseManifest manifestCompact = some ("webmake-site", "1.0.0") ∧
      parseManifest manifestPretty = some ("webmake-site", "1.0.0") := by
  refine ⟨vercelPayload html env clock, ?_, rfl, rfl, archiveEntries_lookup_manifest html,
    by decide, base64Decode_base64Encode _ (fun b hb => utf8Encode_lt_256 b hb),
    parseManifest_both.2, parseManifest_both.1⟩
  rw [POST_vercel_deploy html env clock netRes vercRes hh ht hp]
  by_cases hok : vercRes.ok = true
  · rw [if_pos hok]; rfl
  · rw [if_neg hok]; rfl

theorem post_vercel_manifest_witness :
    ∃ p : VercelPayload,
      (POST (.ok ⟨some "<p>x</p>", some "vercel"⟩) envAll clock0 fetch200 fetch200).calls =
        [OutboundCall.vercelDeploy (envAll.VERCEL_TOKEN.getD "") p] ∧
      (p.files.map VercelFile.data).getD 1 "" =
        String.mk (base64Encode (utf8Encode manifestCompact)) ∧
      (p.files.map VercelFile.sha).getD 1 "" = sha1Hex (utf8Encode manifestCompact) ∧
      (archiveEntries "<p>x</p>").lookup (utf8Encode "package.json") =
        some (utf8Encode manifestPretty) ∧
      utf8Encode manifestCompact ≠ utf8Encode manifestPretty ∧
      base64Decode (base64Encode (utf8Encode manifestCompact)) =
        some (utf8Encode manifestCompact) ∧
      parseManifest manifestCompact = some ("webmake-site", "1.0.0") ∧
      parseManifest manifestPretty = some ("webmake-site", "1.0.0") :=
  post_vercel_manifest "<p>x</p>" envAll clock0 fetch200 fetch200
    (by decide) (by decide) (by decide)

/-- Counterexample to **C8** as stated: the invalid-request failure (here:
missing `html` and `provider`) is a Failure response with status 400 whose
body has an `error` field but **no** `details` field. -/
theorem post_failure_details_counterexample :
    (POST (.ok ⟨none, none⟩) envNone clock0 fetch500 fetch500).response.status = 400 ∧
    (POST (.ok ⟨none, none⟩) envNone clock0 fetch500 fetch500).response.body.error.isSome
      = true ∧
    (POST (.ok ⟨none, none⟩) envNone clock0 fetch500 fetch500).response.body.details = none := by
  refine ⟨rfl, rfl, rfl⟩

/-- **C8 (amended)**: every response of `publish` carries an `error` field
exactly when its status is 400 or 500 (the Failure statuses); deploy and
server failures (status 500) additionally carry a `details` field, while
invalid-request and unknown-provider failures (status 400) carry only
`error`, no `details`. -/
theorem post_failure_shape (req : Except String PublishRequest) (env : Env) (clock : Clock)
    (netRes vercRes : FetchResponse) :
    ((POST req env clock netRes vercRes).response.body.error.isSome = true ↔
      ((POST req env clock netRes vercRes).response.status = 400 ∨
       (POST req env clock netRes vercRes).response.status = 500)) ∧
    ((POST req env clock netRes vercRes).response.status = 500 →
      (POST req env clock netRes vercRes).response.body.details.isSome = true) ∧
    ((POST req env clock netRes vercRes).response.status = 400 →
      (POST req env clock netRes vercRes).response.body.details = none) := by
  cases req with
  | error msg => exact ⟨by simp [POST, mkResult], fun _ => rfl, by simp [POST, mkResult]⟩
  | ok r =>
    simp only [POST]
    split
    · exact ⟨by simp [mkResult], by simp [mkResult], fun _ => rfl⟩
    · split
      · split
        · exact ⟨by simp [mkResult], by simp [mkResult], by simp [mkResult]⟩
        · split
          · exact ⟨by simp [mkResult], fun _ => rfl, by simp [mkResult]⟩
          · exact ⟨by simp [mkResult], by simp [mkResult], by simp [mkResult]⟩
      · split
        · split
          · exact ⟨by simp [mkResult], by simp [mkResult], by simp [mkResult]⟩
          · split
            · exact ⟨by simp [mkResult], fun _ => rfl, by simp [mkResult]⟩
            · exact ⟨by simp [mkResult], by simp [mkResult], by simp [mkResult]⟩
        · exact ⟨by simp [mkResult], by simp [mkResult], fun _ => rfl⟩

theorem post_failure_shape_witness :
    (POST (.error "boom") envNone clock0 fetch500 fetch500).response.body.details.isSome
      = true :=
  (post_failure_shape (.error "boom") envNone clock0 fetch500 fetch500).2.1 rfl

/-- **C4**: `buildHtml` is deterministic given a fixed year; its output
contains `headline`, `subheadline`, `about`, one `<li>• …</li>` item per
service, and `cta` (or the literal `Contact Us` when `cta` is empty); and
the colour value appears in exactly two places — flanked by the gradient
segment (`tpl2`, ending in `linear-gradient(135deg, `) and the button
segment (`tpl3`/`tpl4`, `.btn` `background:`) — in a decomposition whose
other parts do not depend on the colour. -/
theorem buildHtml_spec (d : GenResult) (y : Nat) :
    (∀ d2 y2, d = d2 → y = y2 → buildHtml d y = buildHtml d2 y2) ∧
    containsSeg d.headline (buildHtml d y) ∧
    containsSeg d.subheadline (buildHtml d y) ∧
    containsSeg d.about (buildHtml d y) ∧
    (∀ s ∈ d.services, containsSeg (serviceItem s) (buildHtml d y)) ∧
    containsSeg (if d.cta = "" then "Contact Us" else d.cta) (buildHtml d y) ∧
    ∃ A C : List Char, ∀ c : String,
      (buildHtml { d with color := c } y).data =
        A ++ tpl2.data ++ c.data ++ tpl3.data ++ c.data ++ tpl4.data ++ C := by
  refine ⟨fun d2 y2 hd hy => by rw [hd, hy], ?_, ?_, ?_, ?_, ?_, ?_⟩
  · unfold buildHtml
    repeat first
      | exact containsSeg_left _ (containsSeg_refl _)
      | apply containsSeg_right
  · unfold buildHtml
    repeat first
      | exact containsSeg_left _ (containsSeg_refl _)
      | apply containsSeg_right
  · unfold buildHtml
    repeat first
      | exact containsSeg_left _ (containsSeg_refl _)
      | apply containsSeg_right
  · intro s hs
    unfold buildHtml
    repeat first
      | exact containsSeg_left _ (containsSeg_joinStrings (List.mem_map_of_mem _ hs))
      | apply containsSeg_right
  · unfold buildHtml
    repeat first
      | exact containsSeg_left _ (containsSeg_refl _)
      | apply containsSeg_right
  · refine ⟨tpl1.data ++ d.headline.data,
      d.headline.data ++ tpl5.data ++ d.subheadline.data ++ tpl6.data ++
        (if d.cta = "" then "Contact Us" else d.cta).data ++ tpl7.data ++
        d.imageUrl.data ++ tpl8.data ++ d.about.data ++ tpl9.data ++
        (joinStrings (d.services.map serviceItem)).data ++ tpl10.data ++
        (toString y).data ++ " ".data ++ d.headline.data ++ tpl11.data, fun c => ?_⟩
    simp [buildHtml, string_data_append, List.append_assoc]

theorem buildHtml_spec_witness :
    containsSeg (serviceItem "Haircuts")
      (buildHtml
        { headline := "Peacock Salon", subheadline := "Style", about := "We cut hair.",
          services := ["Haircuts", "Makeup"], cta := "", keywords := [],
          color := "#10b981", imageUrl := "https://img.example/x.jpg" } 2025) :=
  (buildHtml_spec
    { headline := "Peacock Salon", subheadline := "Style", about := "We cut hair.",
      services := ["Haircuts", "Makeup"], cta := "", keywords := [],
      color := "#10b981", imageUrl := "https://img.example/x.jpg" } 2025).2.2.2.2.1
    "Haircuts" (by decide)

theorem archive_roundtrip (html : String) (t d : Nat)
    (hlen : (utf8Encode html).length < 4294967296) :
    base64Decode (String.mk (base64Encode (zipGenerate t d (archiveEntries html)))).data =
      some (zipGenerate t d (archiveEntries html)) ∧
    zipExtract (zipGenerate t d (archiveEntries html)) "index.html" = some (utf8Encode html) ∧
    zipExtract (zipGenerate t d (archiveEntries html)) "package.json" =
      some (utf8Encode manifestPretty) := by
  have hok : ∀ e ∈ archiveEntries html, e.1.length < 65536 ∧ e.2.length < 4294967296 := by
    intro e he
    simp only [archiveEntries, List.mem_cons, List.not_mem_nil, or_false] at he
    rcases he with rfl | rfl
    · exact ⟨show (utf8Encode "index.html").length < 65536 by decide, hlen⟩
    · exact ⟨show (utf8Encode "package.json").length < 65536 by decide,
        show (utf8Encode manifestPretty).length < 4294967296 by decide⟩
  refine ⟨?_, ?_, ?_⟩
  · refine base64Decode_base64Encode _ ?_
    apply zipGenerate_lt
    intro e he
    simp only [archiveEntries, List.mem_cons, List.not_mem_nil, or_false] at he
    rcases he with rfl | rfl
    · exact ⟨fun x hx => utf8Encode_lt_256 x hx, fun x hx => utf8Encode_lt_256 x hx⟩
    · exact ⟨fun x hx => utf8Encode_lt_256 x hx, fun x hx => utf8Encode_lt_256 x hx⟩
  · rw [zipExtract_zipGenerate _ _ _ _ hok, archiveEntries_lookup_index]
  · rw [zipExtract_zipGenerate _ _ _ _ hok, archiveEntries_lookup_manifest]

theorem netlifyMsg_names_keys :
    containsSeg "NETLIFY_TOKEN" netlifyFallbackMsg ∧
    containsSeg "NETLIFY_SITE_ID" netlifyFallbackMsg :=
  ⟨⟨[], " and NETLIFY_SITE_ID must be set as environment variables to deploy.".data, by decide⟩,
   ⟨"NETLIFY_TOKEN and ".data, " must be set as environment variables to deploy.".data,
    by decide⟩⟩

theorem vercelMsg_names_keys :
    containsSeg "VERCEL_TOKEN" vercelFallbackMsg ∧
    containsSeg "VERCEL_PROJECT_ID" vercelFallbackMsg :=
  ⟨⟨[], " and VERCEL_PROJECT_ID must be set as environment variables to deploy.".data,
    by decide⟩,
   ⟨"VERCEL_TOKEN and ".data, " must be set as environment variables to deploy.".data,
    by decide⟩⟩

/-- **C1**: with a truthy `html` and the respective provider's credentials
unset, `publish` answers with a Fallback whose `zipBase64`, after base64
decoding, is a ZIP archive whose `index.html` entry decodes to exactly the
original `html` string; the archive also carries a `package.json` entry
that JSON-decodes to `{name := webmake-site, version := 1.0.0}`, and the
fallback message names the two required configuration keys. -/
theorem post_fallback_roundtrip (html : String) (env : Env) (clock : Clock)
    (netRes vercRes : FetchResponse)
    (hh : truthy (some html) = true)
    (hlen : (utf8Encode html).length < 4294967296) :
    (¬ (truthy env.NETLIFY_TOKEN ∧ truthy env.NETLIFY_SITE_ID) →
      ∃ z : String,
        (POST (.ok ⟨some html, some "netlify"⟩) env clock netRes vercRes).response.body.zipBase64
          = some z ∧
        (POST (.ok ⟨some html, some "netlify"⟩) env clock netRes vercRes).response.body.message
          = some netlifyFallbackMsg ∧
        containsSeg "NETLIFY_TOKEN" netlifyFallbackMsg ∧
        containsSeg "NETLIFY_SITE_ID" netlifyFallbackMsg ∧
        ∃ bytes : List Nat,
          base64Decode z.data = some bytes ∧
          zipExtract bytes "index.html" = some (utf8Encode html) ∧
          utf8Decode (utf8Encode html) = some html ∧
          zipExtract bytes "package.json" = some (utf8Encode manifestPretty) ∧
          parseManifest manifestPretty = some ("webmake-site", "1.0.0")) ∧
    (¬ (truthy env.VERCEL_TOKEN ∧ truthy env.VERCEL_PROJECT_ID) →
      ∃ z : String,
        (POST (.ok ⟨some html, some "vercel"⟩) env clock netRes vercRes).response.body.zipBase64
          = some z ∧
        (POST (.ok ⟨some html, some "vercel"⟩) env clock netRes vercRes).response.body.message
          = some vercelFallbackMsg ∧
        containsSeg "VERCEL_TOKEN" vercelFallbackMsg ∧
        containsSeg "VERCEL_PROJECT_ID" vercelFallbackMsg ∧
        ∃ bytes : List Nat,
          base64Decode z.data = some bytes ∧
          zipExtract bytes "index.html" = some (utf8Encode html) ∧
          utf8Decode (utf8Encode html) = some html ∧
          zipExtract bytes "package.json" = some (utf8Encode manifestPretty) ∧
          parseManifest manifestPretty = some ("webmake-site", "1.0.0")) := by
  constructor
  · intro hc
    rw [POST_netlify_fallback html env clock netRes vercRes hh hc]
    exact ⟨String.mk (base64Encode (zipGenerate clock.dosTime clock.dosDate
        (archiveEntries html))), rfl, rfl,
      netlifyMsg_names_keys.1, netlifyMsg_names_keys.2,
      zipGenerate clock.dosTime clock.dosDate (archiveEntries html),
      (archive_roundtrip html _ _ hlen).1,
      (archive_roundtrip html _ _ hlen).2.1,
      utf8Decode_utf8Encode html,
      (archive_roundtrip html _ _ hlen).2.2,
      parseManifest_both.1⟩
  · intro hc
    rw [POST_vercel_fallback html env clock netRes vercRes hh hc]
    exact ⟨String.mk (base64Encode (zipGenerate clock.dosTime clock.dosDate
        (archiveEntries html))), rfl, rfl,
      vercelMsg_names_keys.1, vercelMsg_names_keys.2,
      zipGenerate clock.dosTime clock.dosDate (archiveEntries html),
      (archive_roundtrip html _ _ hlen).1,
      (archive_roundtrip html _ _ hlen).2.1,
      utf8Decode_utf8Encode html,
      (archive_roundtrip html _ _ hlen).2.2,
      parseManifest_both.1⟩

theorem post_fallback_roundtrip_witness :
    ∃ z : String,
      (POST (.ok ⟨some "<p>x</p>", some "netlify"⟩) envNone clock0 fetch200
        fetch200).response.body.zipBase64 = some z ∧
      (POST (.ok ⟨some "<p>x</p>", some "netlify"⟩) envNone clock0 fetch200
        fetch200).response.body.message = some netlifyFallbackMsg ∧
      containsSeg "NETLIFY_TOKEN" netlifyFallbackMsg ∧
      containsSeg "NETLIFY_SITE_ID" netlifyFallbackMsg ∧
      ∃ bytes : List Nat,
        base64Decode z.data = some bytes ∧
        zipExtract bytes "index.html" = some (utf8Encode "<p>x</p>") ∧
        utf8Decode (utf8Encode "<p>x</p>") = some "<p>x</p>" ∧
        zipExtract bytes "package.json" = some (utf8Encode manifestPretty) ∧
        parseManifest manifestPretty = some ("webmake-site", "1.0.0") :=
  (post_fallback_roundtrip "<p>x</p>" envNone clock0 fetch200 fetch200
    (by decide) (by decide)).1 (by decide)

end Webmake
